import Mathlib

/-!
Shallow embedding of `src/Start_code/src/components/Game.jsx` (the Monster
Slayer battle component).

The component keeps its battle state in React `useState` hooks.  An event
handler reads the state values captured by its render closure (a snapshot),
and calls setters; React commits all queued setter calls after the handler
returns (a direct `setX(v)` overwrites any pending value for `X`, while an
updater `setX(prev => f prev)` composes with it), then runs the `useEffect`
hooks whose dependencies changed against the committed state:
  - the cooldown effect sets `specialAttackAvailable := !(cooldown > 0)`
    when `specialAttackCooldown` changed;
  - `checkForWinner` runs when `playerHealth` or `monsterHealth` changed.
We model a handler as a function from the snapshot (and the pending state
accumulated so far, where a chained call is involved) to the committed
state, and `step` as handler-then-effects.

Randomness (`Math.random()`-driven `getRandomValue(min, max)`, which yields
an integer in `[min, max)`, and `isCriticalHit()`, a biased coin) is
abstracted by passing each drawn value as a parameter; `rollInRange`
states the range the generator guarantees.
-/

namespace MonsterSlayer

/-- The `winner` state: `"player"`, `"monster"` or `"draw"` in the source,
with `null` modelled as `Option.none` at the use sites. -/
inductive Winner where
  | player
  | monster
  | draw
deriving Repr, DecidableEq

/-- A battle-log entry as built by `createLogAttack` / `createLogHeal` /
`surrender`.  The heal and surrender entries of the source omit the
`isCritical` field; a missing field reads as `undefined` (falsy), which we
model as `false`. -/
structure LogEntry where
  isPlayer : Bool
  isDamage : Bool
  isCritical : Bool
  text : String
deriving Repr, DecidableEq

/-- The `gameStats` aggregate. -/
structure GameStats where
  playerDamageDealt : Int
  monsterDamageDealt : Int
  healingDone : Int
  criticalHits : Int
  roundsPlayed : Int
deriving Repr, DecidableEq

/-- The full component state: one field per `useState` hook. -/
structure GameState where
  playerHealth : Int
  monsterHealth : Int
  currentRound : Int
  battleLog : List LogEntry
  gameOver : Bool
  winner : Option Winner
  specialAttackAvailable : Bool
  specialAttackCooldown : Int
  lastActionWasCritical : Bool
  gameStats : GameStats
deriving Repr, DecidableEq

/-- Constants for game mechanics (source lines 60-68). -/
def ATTACK_MIN_DAMAGE : Int := 5

def ATTACK_MAX_DAMAGE : Int := 12

def SPECIAL_ATTACK_MIN_DAMAGE : Int := 10

def SPECIAL_ATTACK_MAX_DAMAGE : Int := 20

def MONSTER_ATTACK_MIN_DAMAGE : Int := 8

def MONSTER_ATTACK_MAX_DAMAGE : Int := 15

def HEAL_MIN_VALUE : Int := 8

def HEAL_MAX_VALUE : Int := 20

def SPECIAL_ATTACK_COOLDOWN : Int := 3

/-- `getRandomValue(min, max)` returns an integer in `[min, max)`; the drawn
value is passed to each action as a parameter, constrained by this
predicate. -/
def rollInRange (lo hi r : Int) : Prop := lo ≤ r ∧ r < hi

instance (lo hi r : Int) : Decidable (rollInRange lo hi r) := by
  unfold rollInRange; infer_instance

/-- `damage = Math.floor(damage * CRITICAL_HIT_MULTIPLIER)` with
`CRITICAL_HIT_MULTIPLIER = 1.5`, applied when the critical roll came up
true.  For the nonnegative integer damages drawn here,
`Math.floor(d * 1.5) = ⌊3 * d / 2⌋`, which Lean's `Int` division computes
exactly. -/
def applyCriticalMultiplier (critical : Bool) (damage : Int) : Int :=
  if critical then 3 * damage / 2 else damage

/-- `createLogAttack` (source lines 20-27). -/
def createLogAttack (isPlayer : Bool) (damage : Int) (isCritical : Bool) : LogEntry :=
  { isPlayer := isPlayer
    isDamage := true
    isCritical := isCritical
    text := " takes " ++ toString damage ++ " damage"
      ++ (if isCritical then " (CRITICAL HIT!)" else "") }

/-- `createLogHeal` (source lines 30-36); the produced object has no
`isCritical` field (falsy). -/
def createLogHeal (healing : Int) (isMaxed : Bool) : LogEntry :=
  { isPlayer := true
    isDamage := false
    isCritical := false
    text := " heals " ++ toString healing ++ " life points"
      ++ (if isMaxed then " (MAX HEALTH!)" else "") }

/-- The literal log object built inside `surrender` (source lines 241-245). -/
def surrenderLogEntry : LogEntry :=
  { isPlayer := true
    isDamage := false
    isCritical := false
    text := " surrendered to the monster!" }

/-- `monsterAttack` (source lines 267-294).  `snap` is the render snapshot
the handler's closure reads (`gameOver`, `playerHealth`, `monsterHealth`);
`acc` is the pending state accumulated by the player action that chained
into this call.  `setPlayerHealth(newHealth)` passes a direct value
computed from the snapshot, so it overwrites any pending `playerHealth`;
the stats and battle-log setters use updater functions and therefore
compose with `acc`. -/
def monsterAttack (snap acc : GameState) (critical : Bool) (roll : Int) : GameState :=
  if snap.gameOver = true ∨ snap.playerHealth ≤ 0 ∨ snap.monsterHealth ≤ 0 then acc
  else
    let damage := applyCriticalMultiplier critical roll
    let newHealth := max (snap.playerHealth - damage) 0
    { acc with
      playerHealth := newHealth
      gameStats := { acc.gameStats with
        monsterDamageDealt := acc.gameStats.monsterDamageDealt + damage }
      battleLog := createLogAttack false damage critical :: acc.battleLog }

/-- `attackMonster` (source lines 102-149): guard, round increment,
critical roll, damage application to the monster, stats, log, cooldown
decrement, then the chained `monsterAttack()` when the monster survived.
The chained call reads the same render snapshot `s`. -/
def attackMonster (s : GameState) (critical : Bool) (roll : Int)
    (mCritical : Bool) (mRoll : Int) : GameState :=
  if s.gameOver = true ∨ s.playerHealth ≤ 0 ∨ s.monsterHealth ≤ 0 then s
  else
    let damage := applyCriticalMultiplier critical roll
    let newMonsterHealth := max (s.monsterHealth - damage) 0
    let acc : GameState :=
      { s with
        currentRound := s.currentRound + 1
        lastActionWasCritical := critical
        monsterHealth := newMonsterHealth
        gameStats := { s.gameStats with
          criticalHits := s.gameStats.criticalHits + (if critical then 1 else 0)
          playerDamageDealt := s.gameStats.playerDamageDealt + damage
          roundsPlayed := s.gameStats.roundsPlayed + 1 }
        battleLog := createLogAttack true damage critical :: s.battleLog
        specialAttackCooldown :=
          if s.specialAttackCooldown > 0 then s.specialAttackCooldown - 1
          else s.specialAttackCooldown }
    if newMonsterHealth > 0 then monsterAttack s acc mCritical mRoll else acc

/-- `specialAttackMonster` (source lines 151-197): like `attackMonster` but
guarded additionally by `specialAttackAvailable`, drawing from the special
range, and setting `specialAttackCooldown := 3` (and
`specialAttackAvailable := false`) instead of decrementing. -/
def specialAttackMonster (s : GameState) (critical : Bool) (roll : Int)
    (mCritical : Bool) (mRoll : Int) : GameState :=
  if s.gameOver = true ∨ s.playerHealth ≤ 0 ∨ s.monsterHealth ≤ 0
      ∨ s.specialAttackAvailable = false then s
  else
    let damage := applyCriticalMultiplier critical roll
    let newMonsterHealth := max (s.monsterHealth - damage) 0
    let acc : GameState :=
      { s with
        currentRound := s.currentRound + 1
        lastActionWasCritical := critical
        monsterHealth := newMonsterHealth
        gameStats := { s.gameStats with
          criticalHits := s.gameStats.criticalHits + (if critical then 1 else 0)
          playerDamageDealt := s.gameStats.playerDamageDealt + damage
          roundsPlayed := s.gameStats.roundsPlayed + 1 }
        battleLog := createLogAttack true damage critical :: s.battleLog
        specialAttackCooldown := SPECIAL_ATTACK_COOLDOWN
        specialAttackAvailable := false }
    if newMonsterHealth > 0 then monsterAttack s acc mCritical mRoll else acc

/-- `healPlayer` (source lines 199-230).  After queueing the heal it always
calls `monsterAttack()`; that chained call reads the render snapshot `s`
(the PRE-heal `playerHealth`) and issues a direct `setPlayerHealth`, which
overwrites the pending healed value. -/
def healPlayer (s : GameState) (roll : Int) (mCritical : Bool) (mRoll : Int) : GameState :=
  if s.gameOver = true ∨ s.playerHealth ≤ 0 ∨ s.monsterHealth ≤ 0
      ∨ s.playerHealth = 100 then s
  else
    let healing := roll
    let isMaxed : Bool := decide (s.playerHealth + healing ≥ 100)
    let newPlayerHealth := min (s.playerHealth + healing) 100
    let acc : GameState :=
      { s with
        currentRound := s.currentRound + 1
        playerHealth := newPlayerHealth
        gameStats := { s.gameStats with
          healingDone := s.gameStats.healingDone
            + (if isMaxed then 100 - s.playerHealth else healing)
          roundsPlayed := s.gameStats.roundsPlayed + 1 }
        battleLog := createLogHeal healing isMaxed :: s.battleLog
        specialAttackCooldown :=
          if s.specialAttackCooldown > 0 then s.specialAttackCooldown - 1
          else s.specialAttackCooldown }
    monsterAttack s acc mCritical mRoll

/-- `surrender` (source lines 232-246). -/
def surrender (s : GameState) : GameState :=
  if s.gameOver = true then s
  else
    { s with
      playerHealth := 0
      winner := some Winner.monster
      gameOver := true
      battleLog := surrenderLogEntry :: s.battleLog }

/-- `resetGame` (source lines 248-265): every field is set directly to its
default. -/
def resetGame : GameState :=
  { playerHealth := 100
    monsterHealth := 100
    currentRound := 0
    battleLog := []
    gameOver := false
    winner := none
    specialAttackAvailable := true
    specialAttackCooldown := 0
    lastActionWasCritical := false
    gameStats :=
      { playerDamageDealt := 0
        monsterDamageDealt := 0
        healingDone := 0
        criticalHits := 0
        roundsPlayed := 0 } }

/-- The initial state produced by the `useState` initializers (source lines
42-57); it coincides with the state `resetGame` installs. -/
def initialState : GameState := resetGame

/-- `checkForWinner` (source lines 296-310), reading the committed health
values. -/
def checkForWinner (s : GameState) : GameState :=
  if s.monsterHealth ≤ 0 ∧ s.playerHealth ≤ 0 then
    { s with winner := some Winner.draw, gameOver := true }
  else if s.monsterHealth ≤ 0 then
    { s with winner := some Winner.player, gameOver := true }
  else if s.playerHealth ≤ 0 then
    { s with winner := some Winner.monster, gameOver := true }
  else s

/-- The cooldown `useEffect` (source lines 86-92, deps
`[specialAttackCooldown]`): when the committed cooldown differs from the
previous render's, re-derive `specialAttackAvailable`. -/
def syncAvailableEffect (pre post : GameState) : GameState :=
  if post.specialAttackCooldown ≠ pre.specialAttackCooldown then
    { post with specialAttackAvailable := decide (¬ post.specialAttackCooldown > 0) }
  else post

/-- The winner `useEffect` (source lines 94-97, deps
`[playerHealth, monsterHealth]`): when a committed health differs from the
previous render's, run `checkForWinner` against the committed state. -/
def winnerEffect (pre s1 : GameState) : GameState :=
  if s1.playerHealth ≠ pre.playerHealth ∨ s1.monsterHealth ≠ pre.monsterHealth then
    checkForWinner s1
  else s1

/-- The `useEffect` hooks relevant to the battle state, run in declaration
order against the committed state `post` when their dependencies changed
relative to the previous render `pre`.  The nested hooks reach a fixed
point after this single pass, because `checkForWinner` only writes
`winner`/`gameOver`, which no hook depends on, and the cooldown effect
only writes `specialAttackAvailable`. -/
def runEffects (pre post : GameState) : GameState :=
  winnerEffect pre (syncAvailableEffect pre post)

/-- A player-visible action together with the random draws it consumes:
the player's critical flag and damage/heal roll, and the monster
counter-attack's critical flag and roll (unused when no counter-attack
happens). -/
inductive Action where
  | attack (critical : Bool) (roll : Int) (mCritical : Bool) (mRoll : Int)
  | special (critical : Bool) (roll : Int) (mCritical : Bool) (mRoll : Int)
  | heal (roll : Int) (mCritical : Bool) (mRoll : Int)
  | surrender
  | reset
deriving Repr, DecidableEq

/-- The random draws carried by an action lie in the ranges
`getRandomValue` is called with in the source. -/
def validAction : Action → Prop
  | .attack _ r _ mr =>
      rollInRange ATTACK_MIN_DAMAGE ATTACK_MAX_DAMAGE r
        ∧ rollInRange MONSTER_ATTACK_MIN_DAMAGE MONSTER_ATTACK_MAX_DAMAGE mr
  | .special _ r _ mr =>
      rollInRange SPECIAL_ATTACK_MIN_DAMAGE SPECIAL_ATTACK_MAX_DAMAGE r
        ∧ rollInRange MONSTER_ATTACK_MIN_DAMAGE MONSTER_ATTACK_MAX_DAMAGE mr
  | .heal r _ mr =>
      rollInRange HEAL_MIN_VALUE HEAL_MAX_VALUE r
        ∧ rollInRange MONSTER_ATTACK_MIN_DAMAGE MONSTER_ATTACK_MAX_DAMAGE mr
  | .surrender => True
  | .reset => True

instance (a : Action) : Decidable (validAction a) := by
  cases a <;> (unfold validAction; infer_instance)

/-- One complete user interaction: run the handler, commit, run the
effects whose dependencies changed. -/
def step (s : GameState) : Action → GameState
  | .attack c r mc mr => runEffects s (attackMonster s c r mc mr)
  | .special c r mc mr => runEffects s (specialAttackMonster s c r mc mr)
  | .heal r mc mr => runEffects s (healPlayer s r mc mr)
  | .surrender => runEffects s (surrender s)
  | .reset => runEffects s resetGame

/-- Clamping invariant: both health values lie in `[0, 100]`. -/
def healthInv (s : GameState) : Prop :=
  0 ≤ s.playerHealth ∧ s.playerHealth ≤ 100
    ∧ 0 ≤ s.monsterHealth ∧ s.monsterHealth ≤ 100

instance (s : GameState) : Decidable (healthInv s) := by
  unfold healthInv; infer_instance

/-- Game-over invariant: `gameOver` holds exactly when some health reached
zero. -/
def gameOverInv (s : GameState) : Prop :=
  s.gameOver = true ↔ (s.playerHealth ≤ 0 ∨ s.monsterHealth ≤ 0)

instance (s : GameState) : Decidable (gameOverInv s) := by
  unfold gameOverInv; infer_instance

/-- Cooldown consistency: `specialAttackAvailable` mirrors
`specialAttackCooldown = 0` (maintained by the cooldown `useEffect`). -/
def cooldownInv (s : GameState) : Prop :=
  s.specialAttackAvailable = true ↔ s.specialAttackCooldown ≤ 0

instance (s : GameState) : Decidable (cooldownInv s) := by
  unfold cooldownInv; infer_instance

end MonsterSlayer

namespace MonsterSlayer

/-! ### Helper lemmas -/

theorem syncAvailableEffect_self (s : GameState) : syncAvailableEffect s s = s := by
  unfold syncAvailableEffect
  simp

theorem winnerEffect_self (s : GameState) : winnerEffect s s = s := by
  unfold winnerEffect
  simp

theorem runEffects_self (s : GameState) : runEffects s s = s := by
  unfold runEffects
  rw [syncAvailableEffect_self, winnerEffect_self]

theorem attack_guard_noop (s : GameState) (c : Bool) (r : Int) (mc : Bool) (mr : Int)
    (h : s.gameOver = true ∨ s.playerHealth ≤ 0 ∨ s.monsterHealth ≤ 0) :
    step s (.attack c r mc mr) = s := by
  show runEffects s (attackMonster s c r mc mr) = s
  rw [attackMonster, if_pos h, runEffects_self]

theorem special_guard_noop (s : GameState) (c : Bool) (r : Int) (mc : Bool) (mr : Int)
    (h : s.gameOver = true ∨ s.playerHealth ≤ 0 ∨ s.monsterHealth ≤ 0
        ∨ s.specialAttackAvailable = false) :
    step s (.special c r mc mr) = s := by
  show runEffects s (specialAttackMonster s c r mc mr) = s
  rw [specialAttackMonster, if_pos h, runEffects_self]

theorem heal_guard_noop (s : GameState) (r : Int) (mc : Bool) (mr : Int)
    (h : s.gameOver = true ∨ s.playerHealth ≤ 0 ∨ s.monsterHealth ≤ 0
        ∨ s.playerHealth = 100) :
    step s (.heal r mc mr) = s := by
  show runEffects s (healPlayer s r mc mr) = s
  rw [healPlayer, if_pos h, runEffects_self]

theorem surrender_guard_noop (s : GameState) (h : s.gameOver = true) :
    step s .surrender = s := by
  show runEffects s (surrender s) = s
  rw [surrender, if_pos h, runEffects_self]

theorem applyCriticalMultiplier_nonneg (c : Bool) (d : Int) (h : 0 ≤ d) :
    0 ≤ applyCriticalMultiplier c d := by
  unfold applyCriticalMultiplier
  split <;> omega

theorem applyCriticalMultiplier_lower (c : Bool) (d lo : Int) (h : lo ≤ d) (hlo : 0 ≤ lo) :
    lo ≤ applyCriticalMultiplier c d := by
  unfold applyCriticalMultiplier
  split <;> omega

end MonsterSlayer

namespace MonsterSlayer

/-! Projection lemmas: `checkForWinner` and the two effects touch only
`winner`, `gameOver` and `specialAttackAvailable`. -/

@[simp] theorem checkForWinner_playerHealth (s : GameState) :
    (checkForWinner s).playerHealth = s.playerHealth := by
  unfold checkForWinner; split_ifs <;> rfl

@[simp] theorem checkForWinner_monsterHealth (s : GameState) :
    (checkForWinner s).monsterHealth = s.monsterHealth := by
  unfold checkForWinner; split_ifs <;> rfl

@[simp] theorem checkForWinner_currentRound (s : GameState) :
    (checkForWinner s).currentRound = s.currentRound := by
  unfold checkForWinner; split_ifs <;> rfl

@[simp] theorem checkForWinner_battleLog (s : GameState) :
    (checkForWinner s).battleLog = s.battleLog := by
  unfold checkForWinner; split_ifs <;> rfl

@[simp] theorem checkForWinner_gameStats (s : GameState) :
    (checkForWinner s).gameStats = s.gameStats := by
  unfold checkForWinner; split_ifs <;> rfl

@[simp] theorem checkForWinner_specialAttackCooldown (s : GameState) :
    (checkForWinner s).specialAttackCooldown = s.specialAttackCooldown := by
  unfold checkForWinner; split_ifs <;> rfl

@[simp] theorem checkForWinner_specialAttackAvailable (s : GameState) :
    (checkForWinner s).specialAttackAvailable = s.specialAttackAvailable := by
  unfold checkForWinner; split_ifs <;> rfl

@[simp] theorem checkForWinner_lastActionWasCritical (s : GameState) :
    (checkForWinner s).lastActionWasCritical = s.lastActionWasCritical := by
  unfold checkForWinner; split_ifs <;> rfl

theorem checkForWinner_gameOver (s : GameState) :
    (checkForWinner s).gameOver =
      if s.monsterHealth ≤ 0 ∨ s.playerHealth ≤ 0 then true else s.gameOver := by
  unfold checkForWinner; split_ifs <;> simp_all
  all_goals (exfalso; omega)

theorem checkForWinner_winner (s : GameState) :
    (checkForWinner s).winner =
      if s.monsterHealth ≤ 0 ∧ s.playerHealth ≤ 0 then some Winner.draw
      else if s.monsterHealth ≤ 0 then some Winner.player
      else if s.playerHealth ≤ 0 then some Winner.monster
      else s.winner := by
  unfold checkForWinner; split_ifs <;> rfl

@[simp] theorem syncAvailableEffect_playerHealth (pre post : GameState) :
    (syncAvailableEffect pre post).playerHealth = post.playerHealth := by
  unfold syncAvailableEffect; split_ifs <;> rfl

@[simp] theorem syncAvailableEffect_monsterHealth (pre post : GameState) :
    (syncAvailableEffect pre post).monsterHealth = post.monsterHealth := by
  unfold syncAvailableEffect; split_ifs <;> rfl

@[simp] theorem syncAvailableEffect_currentRound (pre post : GameState) :
    (syncAvailableEffect pre post).currentRound = post.currentRound := by
  unfold syncAvailableEffect; split_ifs <;> rfl

@[simp] theorem syncAvailableEffect_battleLog (pre post : GameState) :
    (syncAvailableEffect pre post).battleLog = post.battleLog := by
  unfold syncAvailableEffect; split_ifs <;> rfl

@[simp] theorem syncAvailableEffect_gameStats (pre post : GameState) :
    (syncAvailableEffect pre post).gameStats = post.gameStats := by
  unfold syncAvailableEffect; split_ifs <;> rfl

@[simp] theorem syncAvailableEffect_specialAttackCooldown (pre post : GameState) :
    (syncAvailableEffect pre post).specialAttackCooldown = post.specialAttackCooldown := by
  unfold syncAvailableEffect; split_ifs <;> rfl

@[simp] theorem syncAvailableEffect_lastActionWasCritical (pre post : GameState) :
    (syncAvailableEffect pre post).lastActionWasCritical = post.lastActionWasCritical := by
  unfold syncAvailableEffect; split_ifs <;> rfl

@[simp] theorem syncAvailableEffect_gameOver (pre post : GameState) :
    (syncAvailableEffect pre post).gameOver = post.gameOver := by
  unfold syncAvailableEffect; split_ifs <;> rfl

@[simp] theorem syncAvailableEffect_winner (pre post : GameState) :
    (syncAvailableEffect pre post).winner = post.winner := by
  unfold syncAvailableEffect; split_ifs <;> rfl

theorem syncAvailableEffect_specialAttackAvailable (pre post : GameState) :
    (syncAvailableEffect pre post).specialAttackAvailable =
      if post.specialAttackCooldown = pre.specialAttackCooldown then
        post.specialAttackAvailable
      else decide (post.specialAttackCooldown ≤ 0) := by
  unfold syncAvailableEffect
  split_ifs <;> simp_all

@[simp] theorem winnerEffect_playerHealth (pre s1 : GameState) :
    (winnerEffect pre s1).playerHealth = s1.playerHealth := by
  unfold winnerEffect; split_ifs <;> simp

@[simp] theorem winnerEffect_monsterHealth (pre s1 : GameState) :
    (winnerEffect pre s1).monsterHealth = s1.monsterHealth := by
  unfold winnerEffect; split_ifs <;> simp

@[simp] theorem winnerEffect_currentRound (pre s1 : GameState) :
    (winnerEffect pre s1).currentRound = s1.currentRound := by
  unfold winnerEffect; split_ifs <;> simp

@[simp] theorem winnerEffect_battleLog (pre s1 : GameState) :
    (winnerEffect pre s1).battleLog = s1.battleLog := by
  unfold winnerEffect; split_ifs <;> simp

@[simp] theorem winnerEffect_gameStats (pre s1 : GameState) :
    (winnerEffect pre s1).gameStats = s1.gameStats := by
  unfold winnerEffect; split_ifs <;> simp

@[simp] theorem winnerEffect_specialAttackCooldown (pre s1 : GameState) :
    (winnerEffect pre s1).specialAttackCooldown = s1.specialAttackCooldown := by
  unfold winnerEffect; split_ifs <;> simp

@[simp] theorem winnerEffect_specialAttackAvailable (pre s1 : GameState) :
    (winnerEffect pre s1).specialAttackAvailable = s1.specialAttackAvailable := by
  unfold winnerEffect; split_ifs <;> simp

@[simp] theorem winnerEffect_lastActionWasCritical (pre s1 : GameState) :
    (winnerEffect pre s1).lastActionWasCritical = s1.lastActionWasCritical := by
  unfold winnerEffect; split_ifs <;> simp

theorem winnerEffect_gameOver_of_changed (pre s1 : GameState)
    (h : s1.playerHealth ≠ pre.playerHealth ∨ s1.monsterHealth ≠ pre.monsterHealth) :
    (winnerEffect pre s1).gameOver =
      (if s1.monsterHealth ≤ 0 ∨ s1.playerHealth ≤ 0 then true else s1.gameOver) := by
  unfold winnerEffect
  rw [if_pos h, checkForWinner_gameOver]

theorem winnerEffect_winner_of_changed (pre s1 : GameState)
    (h : s1.playerHealth ≠ pre.playerHealth ∨ s1.monsterHealth ≠ pre.monsterHealth) :
    (winnerEffect pre s1).winner =
      (if s1.monsterHealth ≤ 0 ∧ s1.playerHealth ≤ 0 then some Winner.draw
       else if s1.monsterHealth ≤ 0 then some Winner.player
       else if s1.playerHealth ≤ 0 then some Winner.monster
       else s1.winner) := by
  unfold winnerEffect
  rw [if_pos h, checkForWinner_winner]

theorem winnerEffect_of_unchanged (pre s1 : GameState)
    (hp : s1.playerHealth = pre.playerHealth) (hm : s1.monsterHealth = pre.monsterHealth) :
    winnerEffect pre s1 = s1 := by
  unfold winnerEffect
  rw [if_neg]
  push_neg
  exact ⟨hp, hm⟩

@[simp] theorem runEffects_playerHealth (pre post : GameState) :
    (runEffects pre post).playerHealth = post.playerHealth := by
  unfold runEffects; simp

@[simp] theorem runEffects_monsterHealth (pre post : GameState) :
    (runEffects pre post).monsterHealth = post.monsterHealth := by
  unfold runEffects; simp

@[simp] theorem runEffects_currentRound (pre post : GameState) :
    (runEffects pre post).currentRound = post.currentRound := by
  unfold runEffects; simp

@[simp] theorem runEffects_battleLog (pre post : GameState) :
    (runEffects pre post).battleLog = post.battleLog := by
  unfold runEffects; simp

@[simp] theorem runEffects_gameStats (pre post : GameState) :
    (runEffects pre post).gameStats = post.gameStats := by
  unfold runEffects; simp

@[simp] theorem runEffects_specialAttackCooldown (pre post : GameState) :
    (runEffects pre post).specialAttackCooldown = post.specialAttackCooldown := by
  unfold runEffects; simp

@[simp] theorem runEffects_lastActionWasCritical (pre post : GameState) :
    (runEffects pre post).lastActionWasCritical = post.lastActionWasCritical := by
  unfold runEffects; simp

theorem runEffects_specialAttackAvailable (pre post : GameState) :
    (runEffects pre post).specialAttackAvailable =
      if post.specialAttackCooldown = pre.specialAttackCooldown then
        post.specialAttackAvailable
      else decide (post.specialAttackCooldown ≤ 0) := by
  unfold runEffects
  rw [winnerEffect_specialAttackAvailable, syncAvailableEffect_specialAttackAvailable]

theorem runEffects_gameOver_of_changed (pre post : GameState)
    (h : post.playerHealth ≠ pre.playerHealth ∨ post.monsterHealth ≠ pre.monsterHealth) :
    (runEffects pre post).gameOver =
      (if post.monsterHealth ≤ 0 ∨ post.playerHealth ≤ 0 then true else post.gameOver) := by
  unfold runEffects
  rw [winnerEffect_gameOver_of_changed _ _ (by simpa using h)]
  simp

theorem runEffects_winner_of_changed (pre post : GameState)
    (h : post.playerHealth ≠ pre.playerHealth ∨ post.monsterHealth ≠ pre.monsterHealth) :
    (runEffects pre post).winner =
      (if post.monsterHealth ≤ 0 ∧ post.playerHealth ≤ 0 then some Winner.draw
       else if post.monsterHealth ≤ 0 then some Winner.player
       else if post.playerHealth ≤ 0 then some Winner.monster
       else post.winner) := by
  unfold runEffects
  rw [winnerEffect_winner_of_changed _ _ (by simpa using h)]
  simp

theorem runEffects_gameOver_of_unchanged (pre post : GameState)
    (hp : post.playerHealth = pre.playerHealth) (hm : post.monsterHealth = pre.monsterHealth) :
    (runEffects pre post).gameOver = post.gameOver := by
  unfold runEffects
  rw [winnerEffect_of_unchanged _ _ (by simpa using hp) (by simpa using hm)]
  simp

theorem runEffects_winner_of_unchanged (pre post : GameState)
    (hp : post.playerHealth = pre.playerHealth) (hm : post.monsterHealth = pre.monsterHealth) :
    (runEffects pre post).winner = post.winner := by
  unfold runEffects
  rw [winnerEffect_of_unchanged _ _ (by simpa using hp) (by simpa using hm)]
  simp

end MonsterSlayer

namespace MonsterSlayer

/-! Closed forms of the four mutating handlers when their guard passes. -/

theorem attackMonster_run (s : GameState) (c : Bool) (r : Int) (mc : Bool) (mr : Int)
    (hg : ¬(s.gameOver = true ∨ s.playerHealth ≤ 0 ∨ s.monsterHealth ≤ 0)) :
    attackMonster s c r mc mr =
      { playerHealth :=
          if 0 < max (s.monsterHealth - applyCriticalMultiplier c r) 0 then
            max (s.playerHealth - applyCriticalMultiplier mc mr) 0
          else s.playerHealth
        monsterHealth := max (s.monsterHealth - applyCriticalMultiplier c r) 0
        currentRound := s.currentRound + 1
        battleLog :=
          if 0 < max (s.monsterHealth - applyCriticalMultiplier c r) 0 then
            createLogAttack false (applyCriticalMultiplier mc mr) mc
              :: createLogAttack true (applyCriticalMultiplier c r) c :: s.battleLog
          else createLogAttack true (applyCriticalMultiplier c r) c :: s.battleLog
        gameOver := s.gameOver
        winner := s.winner
        specialAttackAvailable := s.specialAttackAvailable
        specialAttackCooldown :=
          if s.specialAttackCooldown > 0 then s.specialAttackCooldown - 1
          else s.specialAttackCooldown
        lastActionWasCritical := c
        gameStats :=
          { playerDamageDealt := s.gameStats.playerDamageDealt + applyCriticalMultiplier c r
            monsterDamageDealt := s.gameStats.monsterDamageDealt
              + (if 0 < max (s.monsterHealth - applyCriticalMultiplier c r) 0 then
                  applyCriticalMultiplier mc mr
                 else 0)
            healingDone := s.gameStats.healingDone
            criticalHits := s.gameStats.criticalHits + (if c then 1 else 0)
            roundsPlayed := s.gameStats.roundsPlayed + 1 } } := by
  unfold attackMonster monsterAttack
  rw [if_neg hg]
  split_ifs with h <;> simp_all

theorem specialAttackMonster_run (s : GameState) (c : Bool) (r : Int) (mc : Bool) (mr : Int)
    (hg : ¬(s.gameOver = true ∨ s.playerHealth ≤ 0 ∨ s.monsterHealth ≤ 0
        ∨ s.specialAttackAvailable = false)) :
    specialAttackMonster s c r mc mr =
      { playerHealth :=
          if 0 < max (s.monsterHealth - applyCriticalMultiplier c r) 0 then
            max (s.playerHealth - applyCriticalMultiplier mc mr) 0
          else s.playerHealth
        monsterHealth := max (s.monsterHealth - applyCriticalMultiplier c r) 0
        currentRound := s.currentRound + 1
        battleLog :=
          if 0 < max (s.monsterHealth - applyCriticalMultiplier c r) 0 then
            createLogAttack false (applyCriticalMultiplier mc mr) mc
              :: createLogAttack true (applyCriticalMultiplier c r) c :: s.battleLog
          else createLogAttack true (applyCriticalMultiplier c r) c :: s.battleLog
        gameOver := s.gameOver
        winner := s.winner
        specialAttackAvailable := false
        specialAttackCooldown := SPECIAL_ATTACK_COOLDOWN
        lastActionWasCritical := c
        gameStats :=
          { playerDamageDealt := s.gameStats.playerDamageDealt + applyCriticalMultiplier c r
            monsterDamageDealt := s.gameStats.monsterDamageDealt
              + (if 0 < max (s.monsterHealth - applyCriticalMultiplier c r) 0 then
                  applyCriticalMultiplier mc mr
                 else 0)
            healingDone := s.gameStats.healingDone
            criticalHits := s.gameStats.criticalHits + (if c then 1 else 0)
            roundsPlayed := s.gameStats.roundsPlayed + 1 } } := by
  unfold specialAttackMonster monsterAttack
  rw [if_neg hg]
  have hg2 : ¬(s.gameOver = true ∨ s.playerHealth ≤ 0 ∨ s.monsterHealth ≤ 0) := by
    push_neg at hg ⊢
    exact ⟨hg.1, hg.2.1, hg.2.2.1⟩
  split_ifs with h <;> simp_all

theorem healPlayer_run (s : GameState) (r : Int) (mc : Bool) (mr : Int)
    (hg : ¬(s.gameOver = true ∨ s.playerHealth ≤ 0 ∨ s.monsterHealth ≤ 0
        ∨ s.playerHealth = 100)) :
    healPlayer s r mc mr =
      { playerHealth := max (s.playerHealth - applyCriticalMultiplier mc mr) 0
        monsterHealth := s.monsterHealth
        currentRound := s.currentRound + 1
        battleLog :=
          createLogAttack false (applyCriticalMultiplier mc mr) mc
            :: createLogHeal r (decide (s.playerHealth + r ≥ 100)) :: s.battleLog
        gameOver := s.gameOver
        winner := s.winner
        specialAttackAvailable := s.specialAttackAvailable
        specialAttackCooldown :=
          if s.specialAttackCooldown > 0 then s.specialAttackCooldown - 1
          else s.specialAttackCooldown
        lastActionWasCritical := s.lastActionWasCritical
        gameStats :=
          { playerDamageDealt := s.gameStats.playerDamageDealt
            monsterDamageDealt := s.gameStats.monsterDamageDealt + applyCriticalMultiplier mc mr
            healingDone := s.gameStats.healingDone
              + (if s.playerHealth + r ≥ 100 then 100 - s.playerHealth else r)
            criticalHits := s.gameStats.criticalHits
            roundsPlayed := s.gameStats.roundsPlayed + 1 } } := by
  unfold healPlayer monsterAttack
  rw [if_neg hg]
  have hg2 : ¬(s.gameOver = true ∨ s.playerHealth ≤ 0 ∨ s.monsterHealth ≤ 0) := by
    push_neg at hg ⊢
    exact ⟨hg.1, hg.2.1, hg.2.2.1⟩
  rw [if_neg hg2]
  split_ifs <;> simp_all

theorem surrender_run (s : GameState) (h : ¬ s.gameOver = true) :
    surrender s =
      { s with
        playerHealth := 0
        winner := some Winner.monster
        gameOver := true
        battleLog := surrenderLogEntry :: s.battleLog } := by
  unfold surrender
  rw [if_neg h]

end MonsterSlayer

namespace MonsterSlayer

/-! Bounds on the damage actually dealt, given the generator's ranges. -/

theorem attack_damage_bounds (c : Bool) (r : Int)
    (h : rollInRange ATTACK_MIN_DAMAGE ATTACK_MAX_DAMAGE r) :
    5 ≤ applyCriticalMultiplier c r ∧ applyCriticalMultiplier c r ≤ 16 := by
  unfold rollInRange ATTACK_MIN_DAMAGE ATTACK_MAX_DAMAGE at h
  unfold applyCriticalMultiplier
  split <;> omega

theorem special_damage_bounds (c : Bool) (r : Int)
    (h : rollInRange SPECIAL_ATTACK_MIN_DAMAGE SPECIAL_ATTACK_MAX_DAMAGE r) :
    10 ≤ applyCriticalMultiplier c r ∧ applyCriticalMultiplier c r ≤ 28 := by
  unfold rollInRange SPECIAL_ATTACK_MIN_DAMAGE SPECIAL_ATTACK_MAX_DAMAGE at h
  unfold applyCriticalMultiplier
  split <;> omega

theorem monster_damage_bounds (c : Bool) (r : Int)
    (h : rollInRange MONSTER_ATTACK_MIN_DAMAGE MONSTER_ATTACK_MAX_DAMAGE r) :
    8 ≤ applyCriticalMultiplier c r ∧ applyCriticalMultiplier c r ≤ 21 := by
  unfold rollInRange MONSTER_ATTACK_MIN_DAMAGE MONSTER_ATTACK_MAX_DAMAGE at h
  unfold applyCriticalMultiplier
  split <;> omega

/-- After a commit whose handler left `gameOver` false and changed a
health value, the winner effect re-establishes the game-over invariant. -/
theorem gameOverInv_effects_changed (s post : GameState) (hgo : post.gameOver = false)
    (h : post.playerHealth ≠ s.playerHealth ∨ post.monsterHealth ≠ s.monsterHealth) :
    gameOverInv (runEffects s post) := by
  unfold gameOverInv
  rw [runEffects_gameOver_of_changed _ _ h]
  simp only [runEffects_playerHealth, runEffects_monsterHealth, hgo]
  split_ifs with hcond <;> simp_all
  tauto

/-! ### The claims -/

/-- Claim C2: after every action (attack, specialAttack, heal,
monsterAttack chained inside them, surrender, reset) both `playerHealth`
and `monsterHealth` remain in `[0, 100]`: the clamping invariant is
preserved by every `step`. -/
theorem C2_clamping_invariant (s : GameState) (a : Action)
    (hva : validAction a) (hinv : healthInv s) : healthInv (step s a) := by
  obtain ⟨hp0, hp1, hm0, hm1⟩ := hinv
  cases a with
  | attack c r mc mr =>
    obtain ⟨hr, hmr⟩ := hva
    have hd := attack_damage_bounds c r hr
    have hmd := monster_damage_bounds mc mr hmr
    by_cases hg : s.gameOver = true ∨ s.playerHealth ≤ 0 ∨ s.monsterHealth ≤ 0
    · rw [attack_guard_noop s c r mc mr hg]
      exact ⟨hp0, hp1, hm0, hm1⟩
    · show healthInv (runEffects s (attackMonster s c r mc mr))
      rw [attackMonster_run s c r mc mr hg]
      unfold healthInv
      simp only [runEffects_playerHealth, runEffects_monsterHealth]
      split_ifs <;> omega
  | special c r mc mr =>
    obtain ⟨hr, hmr⟩ := hva
    have hd := special_damage_bounds c r hr
    have hmd := monster_damage_bounds mc mr hmr
    by_cases hg : s.gameOver = true ∨ s.playerHealth ≤ 0 ∨ s.monsterHealth ≤ 0
        ∨ s.specialAttackAvailable = false
    · rw [special_guard_noop s c r mc mr hg]
      exact ⟨hp0, hp1, hm0, hm1⟩
    · show healthInv (runEffects s (specialAttackMonster s c r mc mr))
      rw [specialAttackMonster_run s c r mc mr hg]
      unfold healthInv
      simp only [runEffects_playerHealth, runEffects_monsterHealth]
      split_ifs <;> omega
  | heal r mc mr =>
    obtain ⟨hr, hmr⟩ := hva
    unfold rollInRange HEAL_MIN_VALUE HEAL_MAX_VALUE at hr
    have hmd := monster_damage_bounds mc mr hmr
    by_cases hg : s.gameOver = true ∨ s.playerHealth ≤ 0 ∨ s.monsterHealth ≤ 0
        ∨ s.playerHealth = 100
    · rw [heal_guard_noop s r mc mr hg]
      exact ⟨hp0, hp1, hm0, hm1⟩
    · show healthInv (runEffects s (healPlayer s r mc mr))
      rw [healPlayer_run s r mc mr hg]
      unfold healthInv
      simp only [runEffects_playerHealth, runEffects_monsterHealth]
      omega
  | surrender =>
    by_cases hg : s.gameOver = true
    · rw [surrender_guard_noop s hg]
      exact ⟨hp0, hp1, hm0, hm1⟩
    · show healthInv (runEffects s (surrender s))
      rw [surrender_run s hg]
      unfold healthInv
      simp only [runEffects_playerHealth, runEffects_monsterHealth]
      omega
  | reset =>
    show healthInv (runEffects s resetGame)
    unfold healthInv
    simp only [runEffects_playerHealth, runEffects_monsterHealth, resetGame]
    omega

/-- Witness for C2 at a concrete state and action. -/
theorem C2_clamping_invariant_witness :
    validAction (Action.attack false 7 false 8) ∧ healthInv initialState
      ∧ healthInv (step initialState (Action.attack false 7 false 8)) :=
  ⟨by decide, by decide,
    C2_clamping_invariant initialState (Action.attack false 7 false 8)
      (by decide) (by decide)⟩

/-- Claim C3: after every public action completes, with the reactive
winner recomputation applied, `gameOver = true` holds exactly when
`playerHealth ≤ 0` or `monsterHealth ≤ 0`: the biconditional is preserved
by every `step`. -/
theorem C3_gameOver_iff (s : GameState) (a : Action)
    (hva : validAction a) (hinv : gameOverInv s) : gameOverInv (step s a) := by
  cases a with
  | attack c r mc mr =>
    obtain ⟨hr, hmr⟩ := hva
    have hd := attack_damage_bounds c r hr
    by_cases hg : s.gameOver = true ∨ s.playerHealth ≤ 0 ∨ s.monsterHealth ≤ 0
    · rw [attack_guard_noop s c r mc mr hg]
      exact hinv
    · have hg' := hg
      push_neg at hg'
      obtain ⟨hgo, hp, hm⟩ := hg'
      show gameOverInv (runEffects s (attackMonster s c r mc mr))
      rw [attackMonster_run s c r mc mr hg]
      apply gameOverInv_effects_changed <;> simp_all
      omega
  | special c r mc mr =>
    obtain ⟨hr, hmr⟩ := hva
    have hd := special_damage_bounds c r hr
    by_cases hg : s.gameOver = true ∨ s.playerHealth ≤ 0 ∨ s.monsterHealth ≤ 0
        ∨ s.specialAttackAvailable = false
    · rw [special_guard_noop s c r mc mr hg]
      exact hinv
    · have hg' := hg
      push_neg at hg'
      obtain ⟨hgo, hp, hm, hav⟩ := hg'
      show gameOverInv (runEffects s (specialAttackMonster s c r mc mr))
      rw [specialAttackMonster_run s c r mc mr hg]
      apply gameOverInv_effects_changed <;> simp_all
      omega
  | heal r mc mr =>
    obtain ⟨hr, hmr⟩ := hva
    have hmd := monster_damage_bounds mc mr hmr
    by_cases hg : s.gameOver = true ∨ s.playerHealth ≤ 0 ∨ s.monsterHealth ≤ 0
        ∨ s.playerHealth = 100
    · rw [heal_guard_noop s r mc mr hg]
      exact hinv
    · have hg' := hg
      push_neg at hg'
      obtain ⟨hgo, hp, hm, hp100⟩ := hg'
      show gameOverInv (runEffects s (healPlayer s r mc mr))
      rw [healPlayer_run s r mc mr hg]
      apply gameOverInv_effects_changed <;> simp_all
      omega
  | surrender =>
    by_cases hg : s.gameOver = true
    · rw [surrender_guard_noop s hg]
      exact hinv
    · show gameOverInv (runEffects s (surrender s))
      rw [surrender_run s hg]
      unfold gameOverInv
      by_cases hch : ({ s with
          playerHealth := 0
          winner := some Winner.monster
          gameOver := true
          battleLog := surrenderLogEntry :: s.battleLog } : GameState).playerHealth
            ≠ s.playerHealth
          ∨ ({ s with
          playerHealth := 0
          winner := some Winner.monster
          gameOver := true
          battleLog := surrenderLogEntry :: s.battleLog } : GameState).monsterHealth
            ≠ s.monsterHealth
      · rw [runEffects_gameOver_of_changed _ _ hch]
        simp only [runEffects_playerHealth, runEffects_monsterHealth]
        split_ifs <;> simp_all
      · push_neg at hch
        rw [runEffects_gameOver_of_unchanged _ _ hch.1 hch.2]
        simp only [runEffects_playerHealth, runEffects_monsterHealth]
        simp_all
  | reset =>
    show gameOverInv (runEffects s resetGame)
    unfold gameOverInv
    by_cases hch : resetGame.playerHealth ≠ s.playerHealth
        ∨ resetGame.monsterHealth ≠ s.monsterHealth
    · rw [runEffects_gameOver_of_changed _ _ hch]
      simp only [runEffects_playerHealth, runEffects_monsterHealth]
      simp [resetGame]
    · push_neg at hch
      rw [runEffects_gameOver_of_unchanged _ _ hch.1 hch.2]
      simp only [runEffects_playerHealth, runEffects_monsterHealth]
      simp [resetGame]

/-- Witness for C3 at a concrete state and action. -/
theorem C3_gameOver_iff_witness :
    validAction (Action.heal 10 false 9) ∧ gameOverInv initialState
      ∧ gameOverInv (step initialState (Action.heal 10 false 9)) :=
  ⟨by decide, by decide,
    C3_gameOver_iff initialState (Action.heal 10 false 9) (by decide) (by decide)⟩

end MonsterSlayer

namespace MonsterSlayer

/-- Two states are equal when all ten fields agree. -/
theorem GameState.ext_fields (x y : GameState)
    (h1 : x.playerHealth = y.playerHealth) (h2 : x.monsterHealth = y.monsterHealth)
    (h3 : x.currentRound = y.currentRound) (h4 : x.battleLog = y.battleLog)
    (h5 : x.gameOver = y.gameOver) (h6 : x.winner = y.winner)
    (h7 : x.specialAttackAvailable = y.specialAttackAvailable)
    (h8 : x.specialAttackCooldown = y.specialAttackCooldown)
    (h9 : x.lastActionWasCritical = y.lastActionWasCritical)
    (h10 : x.gameStats = y.gameStats) : x = y := by
  cases x
  cases y
  simp_all

theorem syncAvailableEffect_of_unchanged (pre post : GameState)
    (h : post.specialAttackCooldown = pre.specialAttackCooldown) :
    syncAvailableEffect pre post = post := by
  unfold syncAvailableEffect
  simp [h]

/-- When the player's hit was lethal (and the player is still standing),
the effects declare the player the winner and end the game. -/
theorem runEffects_lethal_monster (s post : GameState)
    (hmh : post.monsterHealth ≠ s.monsterHealth)
    (hm0 : post.monsterHealth ≤ 0) (hp : 0 < post.playerHealth) :
    (runEffects s post).winner = some Winner.player
      ∧ (runEffects s post).gameOver = true := by
  constructor
  · rw [runEffects_winner_of_changed _ _ (Or.inr hmh)]
    rw [if_neg (by omega), if_pos hm0]
  · rw [runEffects_gameOver_of_changed _ _ (Or.inr hmh)]
    rw [if_pos (Or.inl hm0)]

/-- Claim C1 counterexample: from playerHealth = 50, monsterHealth = 50, a
complete `heal()` call with heal roll 19 and a non-critical monster roll 8
STRICTLY DECREASES playerHealth (50 to 42), refuting "the complete heal()
call strictly increases playerHealth": the chained `monsterAttack()` reads
the pre-heal health from its render closure and its direct
`setPlayerHealth` overwrites the queued heal. -/
theorem C1_heal_counterexample :
    validAction (Action.heal 19 false 8)
      ∧ ({ initialState with playerHealth := 50, monsterHealth := 50 } : GameState).gameOver
          = false
      ∧ 0 < ({ initialState with playerHealth := 50, monsterHealth := 50 } : GameState).playerHealth
      ∧ ({ initialState with playerHealth := 50, monsterHealth := 50 } : GameState).playerHealth
          < 100
      ∧ 0 < ({ initialState with playerHealth := 50, monsterHealth := 50 } : GameState).monsterHealth
      ∧ (step { initialState with playerHealth := 50, monsterHealth := 50 }
            (Action.heal 19 false 8)).playerHealth
          < ({ initialState with playerHealth := 50, monsterHealth := 50 } : GameState).playerHealth := by
  decide

/-- Claim C1 (amended): `heal()` is a no-op at playerHealth = 100;
otherwise, for every non-game-over state with 0 < playerHealth ≤ 100 and
monsterHealth > 0, the complete `heal()` call never pushes playerHealth
above 100, but it strictly DECREASES it: the committed value is
`max (pre-heal playerHealth - monster damage, 0)`, because the chained
counter-attack computes from the pre-heal snapshot and overwrites the
queued heal. -/
theorem C1_heal_amended (s : GameState) (r : Int) (mc : Bool) (mr : Int)
    (hgo : s.gameOver = false) (hp0 : 0 < s.playerHealth) (hp1 : s.playerHealth ≤ 100)
    (hm : 0 < s.monsterHealth)
    ( _hr : rollInRange HEAL_MIN_VALUE HEAL_MAX_VALUE r)
    (hmr : rollInRange MONSTER_ATTACK_MIN_DAMAGE MONSTER_ATTACK_MAX_DAMAGE mr) :
    if s.playerHealth = 100 then step s (Action.heal r mc mr) = s
    else
      (step s (Action.heal r mc mr)).playerHealth
          = max (s.playerHealth - applyCriticalMultiplier mc mr) 0
        ∧ (step s (Action.heal r mc mr)).playerHealth < s.playerHealth
        ∧ 0 ≤ (step s (Action.heal r mc mr)).playerHealth
        ∧ (step s (Action.heal r mc mr)).playerHealth ≤ 100 := by
  split_ifs with h100
  · exact heal_guard_noop s r mc mr (Or.inr (Or.inr (Or.inr h100)))
  · have hgH : ¬(s.gameOver = true ∨ s.playerHealth ≤ 0 ∨ s.monsterHealth ≤ 0
        ∨ s.playerHealth = 100) := by
      simp [hgo, h100]
      omega
    have hmd := monster_damage_bounds mc mr hmr
    have hph : (step s (Action.heal r mc mr)).playerHealth
        = max (s.playerHealth - applyCriticalMultiplier mc mr) 0 := by
      show (runEffects s (healPlayer s r mc mr)).playerHealth = _
      rw [healPlayer_run s r mc mr hgH]
      simp only [runEffects_playerHealth]
    refine ⟨hph, ?_, ?_, ?_⟩ <;> rw [hph] <;> omega

/-- Witness for the amended C1 at a concrete state. -/
theorem C1_heal_amended_witness :
    ({ initialState with playerHealth := 50, monsterHealth := 50 } : GameState).gameOver = false
      ∧ rollInRange HEAL_MIN_VALUE HEAL_MAX_VALUE 19
      ∧ rollInRange MONSTER_ATTACK_MIN_DAMAGE MONSTER_ATTACK_MAX_DAMAGE 8
      ∧ (if ({ initialState with playerHealth := 50, monsterHealth := 50 } : GameState).playerHealth
            = 100 then
          step { initialState with playerHealth := 50, monsterHealth := 50 }
              (Action.heal 19 false 8)
            = { initialState with playerHealth := 50, monsterHealth := 50 }
         else
          (step { initialState with playerHealth := 50, monsterHealth := 50 }
              (Action.heal 19 false 8)).playerHealth
              = max (({ initialState with playerHealth := 50, monsterHealth := 50 }
                  : GameState).playerHealth - applyCriticalMultiplier false 8) 0
            ∧ (step { initialState with playerHealth := 50, monsterHealth := 50 }
                (Action.heal 19 false 8)).playerHealth
              < ({ initialState with playerHealth := 50, monsterHealth := 50 }
                  : GameState).playerHealth
            ∧ 0 ≤ (step { initialState with playerHealth := 50, monsterHealth := 50 }
                (Action.heal 19 false 8)).playerHealth
            ∧ (step { initialState with playerHealth := 50, monsterHealth := 50 }
                (Action.heal 19 false 8)).playerHealth ≤ 100) :=
  ⟨by decide, by decide, by decide,
    C1_heal_amended { initialState with playerHealth := 50, monsterHealth := 50 }
      19 false 8 (by decide) (by decide) (by decide) (by decide) (by decide) (by decide)⟩

/-- The winner-determination rule exactly as the specification words it:
both healths ≤ 0 give a draw, only the monster down gives the player the
win, only the player down gives the monster the win, otherwise winner and
game-over flag are unchanged; whenever a winner is determined the game is
over.  Spec-side definition for the refinement claim C4, to be compared
with `checkForWinner`. -/
def winnerSpec (playerHealth monsterHealth : Int) (winner : Option Winner)
    (gameOver : Bool) : Option Winner × Bool :=
  if monsterHealth ≤ 0 ∧ playerHealth ≤ 0 then (some Winner.draw, true)
  else if monsterHealth ≤ 0 ∧ 0 < playerHealth then (some Winner.player, true)
  else if playerHealth ≤ 0 ∧ 0 < monsterHealth then (some Winner.monster, true)
  else (winner, gameOver)

/-- Claim C4: winner determination is a deterministic function of the two
final health values: `checkForWinner` computes exactly the winner/gameOver
pair described by the spec (`winnerSpec`), leaving them unchanged when
both are positive. -/
theorem C4_winner_determination (s : GameState) :
    ((checkForWinner s).winner, (checkForWinner s).gameOver)
      = winnerSpec s.playerHealth s.monsterHealth s.winner s.gameOver := by
  unfold winnerSpec
  rw [checkForWinner_winner, checkForWinner_gameOver]
  split_ifs <;> simp_all
  omega

end MonsterSlayer

namespace MonsterSlayer

/-- Claim C5: `attack()` and `specialAttack()` chain into the monster's
counter-attack exactly when the monster's health after the player's hit is
still positive (observable in the monster-damage stat and the number of
appended log entries); a lethal hit instead yields winner = player and
gameOver = true with no counter-attack; `heal()` chains into the
counter-attack unconditionally (its guard only requires the monster alive
before the call). -/
theorem C5_turn_chaining (s : GameState) (c : Bool) (rA rS rH : Int) (mc : Bool) (mr : Int)
    (hgo : s.gameOver = false) (hp : 0 < s.playerHealth) (hp100 : s.playerHealth ≠ 100)
    (hm : 0 < s.monsterHealth) (hav : s.specialAttackAvailable = true)
    ( _hrA : rollInRange ATTACK_MIN_DAMAGE ATTACK_MAX_DAMAGE rA)
    ( _hrS : rollInRange SPECIAL_ATTACK_MIN_DAMAGE SPECIAL_ATTACK_MAX_DAMAGE rS)
    ( _hrH : rollInRange HEAL_MIN_VALUE HEAL_MAX_VALUE rH)
    ( _hmr : rollInRange MONSTER_ATTACK_MIN_DAMAGE MONSTER_ATTACK_MAX_DAMAGE mr) :
    ((step s (Action.attack c rA mc mr)).gameStats.monsterDamageDealt
        = s.gameStats.monsterDamageDealt
          + (if 0 < s.monsterHealth - applyCriticalMultiplier c rA then
              applyCriticalMultiplier mc mr
             else 0))
    ∧ ((step s (Action.attack c rA mc mr)).battleLog.length = s.battleLog.length
          + (if 0 < s.monsterHealth - applyCriticalMultiplier c rA then 2 else 1))
    ∧ (if s.monsterHealth - applyCriticalMultiplier c rA ≤ 0 then
          (step s (Action.attack c rA mc mr)).winner = some Winner.player
            ∧ (step s (Action.attack c rA mc mr)).gameOver = true
       else True)
    ∧ ((step s (Action.special c rS mc mr)).gameStats.monsterDamageDealt
        = s.gameStats.monsterDamageDealt
          + (if 0 < s.monsterHealth - applyCriticalMultiplier c rS then
              applyCriticalMultiplier mc mr
             else 0))
    ∧ ((step s (Action.special c rS mc mr)).battleLog.length = s.battleLog.length
          + (if 0 < s.monsterHealth - applyCriticalMultiplier c rS then 2 else 1))
    ∧ (if s.monsterHealth - applyCriticalMultiplier c rS ≤ 0 then
          (step s (Action.special c rS mc mr)).winner = some Winner.player
            ∧ (step s (Action.special c rS mc mr)).gameOver = true
       else True)
    ∧ ((step s (Action.heal rH mc mr)).gameStats.monsterDamageDealt
        = s.gameStats.monsterDamageDealt + applyCriticalMultiplier mc mr)
    ∧ ((step s (Action.heal rH mc mr)).battleLog.length = s.battleLog.length + 2) := by
  have hgA : ¬(s.gameOver = true ∨ s.playerHealth ≤ 0 ∨ s.monsterHealth ≤ 0) := by
    simp [hgo]
    omega
  have hgS : ¬(s.gameOver = true ∨ s.playerHealth ≤ 0 ∨ s.monsterHealth ≤ 0
      ∨ s.specialAttackAvailable = false) := by
    simp [hgo, hav]
    omega
  have hgH : ¬(s.gameOver = true ∨ s.playerHealth ≤ 0 ∨ s.monsterHealth ≤ 0
      ∨ s.playerHealth = 100) := by
    simp [hgo, hp100]
    omega
  refine ⟨?_, ?_, ?_, ?_, ?_, ?_, ?_, ?_⟩
  · show (runEffects s (attackMonster s c rA mc mr)).gameStats.monsterDamageDealt = _
    rw [attackMonster_run s c rA mc mr hgA]
    simp only [runEffects_gameStats]
    split_ifs <;> simp_all
    omega
  · show (runEffects s (attackMonster s c rA mc mr)).battleLog.length = _
    rw [attackMonster_run s c rA mc mr hgA]
    simp only [runEffects_battleLog]
    split_ifs <;> simp_all
    omega
  · split_ifs with hlethal
    show (runEffects s (attackMonster s c rA mc mr)).winner = some Winner.player
      ∧ (runEffects s (attackMonster s c rA mc mr)).gameOver = true
    rw [attackMonster_run s c rA mc mr hgA]
    refine runEffects_lethal_monster s _ ?_ ?_ ?_
    · show max (s.monsterHealth - applyCriticalMultiplier c rA) 0 ≠ s.monsterHealth
      omega
    · show max (s.monsterHealth - applyCriticalMultiplier c rA) 0 ≤ 0
      omega
    · show 0 < if 0 < max (s.monsterHealth - applyCriticalMultiplier c rA) 0 then
          max (s.playerHealth - applyCriticalMultiplier mc mr) 0
        else s.playerHealth
      rw [if_neg (by omega)]
      exact hp
  · show (runEffects s (specialAttackMonster s c rS mc mr)).gameStats.monsterDamageDealt = _
    rw [specialAttackMonster_run s c rS mc mr hgS]
    simp only [runEffects_gameStats]
    split_ifs <;> simp_all
    omega
  · show (runEffects s (specialAttackMonster s c rS mc mr)).battleLog.length = _
    rw [specialAttackMonster_run s c rS mc mr hgS]
    simp only [runEffects_battleLog]
    split_ifs <;> simp_all
    omega
  · split_ifs with hlethal
    show (runEffects s (specialAttackMonster s c rS mc mr)).winner = some Winner.player
      ∧ (runEffects s (specialAttackMonster s c rS mc mr)).gameOver = true
    rw [specialAttackMonster_run s c rS mc mr hgS]
    refine runEffects_lethal_monster s _ ?_ ?_ ?_
    · show max (s.monsterHealth - applyCriticalMultiplier c rS) 0 ≠ s.monsterHealth
      omega
    · show max (s.monsterHealth - applyCriticalMultiplier c rS) 0 ≤ 0
      omega
    · show 0 < if 0 < max (s.monsterHealth - applyCriticalMultiplier c rS) 0 then
          max (s.playerHealth - applyCriticalMultiplier mc mr) 0
        else s.playerHealth
      rw [if_neg (by omega)]
      exact hp
  · show (runEffects s (healPlayer s rH mc mr)).gameStats.monsterDamageDealt = _
    rw [healPlayer_run s rH mc mr hgH]
    simp only [runEffects_gameStats]
  · show (runEffects s (healPlayer s rH mc mr)).battleLog.length = _
    rw [healPlayer_run s rH mc mr hgH]
    simp only [runEffects_battleLog]
    simp

end MonsterSlayer

namespace MonsterSlayer

/-- Witness for C5 at a concrete state and rolls. -/
theorem C5_turn_chaining_witness :
    ({ initialState with playerHealth := 50, monsterHealth := 50 } : GameState).gameOver = false
      ∧ 0 < ({ initialState with playerHealth := 50, monsterHealth := 50 } : GameState).playerHealth
      ∧ ({ initialState with playerHealth := 50, monsterHealth := 50 } : GameState).playerHealth ≠ 100
      ∧ 0 < ({ initialState with playerHealth := 50, monsterHealth := 50 } : GameState).monsterHealth
      ∧ ({ initialState with playerHealth := 50, monsterHealth := 50 } : GameState).specialAttackAvailable = true
      ∧ rollInRange ATTACK_MIN_DAMAGE ATTACK_MAX_DAMAGE 7
      ∧ rollInRange SPECIAL_ATTACK_MIN_DAMAGE SPECIAL_ATTACK_MAX_DAMAGE 12
      ∧ rollInRange HEAL_MIN_VALUE HEAL_MAX_VALUE 10
      ∧ rollInRange MONSTER_ATTACK_MIN_DAMAGE MONSTER_ATTACK_MAX_DAMAGE 9
      ∧ (((step { initialState with playerHealth := 50, monsterHealth := 50 } (Action.attack false 7 false 9)).gameStats.monsterDamageDealt
            = ({ initialState with playerHealth := 50, monsterHealth := 50 } : GameState).gameStats.monsterDamageDealt
              + (if 0 < ({ initialState with playerHealth := 50, monsterHealth := 50 } : GameState).monsterHealth - applyCriticalMultiplier false 7 then
                  applyCriticalMultiplier false 9
                 else 0))
        ∧ ((step { initialState with playerHealth := 50, monsterHealth := 50 } (Action.attack false 7 false 9)).battleLog.length = ({ initialState with playerHealth := 50, monsterHealth := 50 } : GameState).battleLog.length
              + (if 0 < ({ initialState with playerHealth := 50, monsterHealth := 50 } : GameState).monsterHealth - applyCriticalMultiplier false 7 then 2 else 1))
        ∧ (if ({ initialState with playerHealth := 50, monsterHealth := 50 } : GameState).monsterHealth - applyCriticalMultiplier false 7 ≤ 0 then
              (step { initialState with playerHealth := 50, monsterHealth := 50 } (Action.attack false 7 false 9)).winner = some Winner.player
                ∧ (step { initialState with playerHealth := 50, monsterHealth := 50 } (Action.attack false 7 false 9)).gameOver = true
           else True)
        ∧ ((step { initialState with playerHealth := 50, monsterHealth := 50 } (Action.special false 12 false 9)).gameStats.monsterDamageDealt
            = ({ initialState with playerHealth := 50, monsterHealth := 50 } : GameState).gameStats.monsterDamageDealt
              + (if 0 < ({ initialState with playerHealth := 50, monsterHealth := 50 } : GameState).monsterHealth - applyCriticalMultiplier false 12 then
                  applyCriticalMultiplier false 9
                 else 0))
        ∧ ((step { initialState with playerHealth := 50, monsterHealth := 50 } (Action.special false 12 false 9)).battleLog.length = ({ initialState with playerHealth := 50, monsterHealth := 50 } : GameState).battleLog.length
              + (if 0 < ({ initialState with playerHealth := 50, monsterHealth := 50 } : GameState).monsterHealth - applyCriticalMultiplier false 12 then 2 else 1))
        ∧ (if ({ initialState with playerHealth := 50, monsterHealth := 50 } : GameState).monsterHealth - applyCriticalMultiplier false 12 ≤ 0 then
              (step { initialState with playerHealth := 50, monsterHealth := 50 } (Action.special false 12 false 9)).winner = some Winner.player
                ∧ (step { initialState with playerHealth := 50, monsterHealth := 50 } (Action.special false 12 false 9)).gameOver = true
           else True)
        ∧ ((step { initialState with playerHealth := 50, monsterHealth := 50 } (Action.heal 10 false 9)).gameStats.monsterDamageDealt
            = ({ initialState with playerHealth := 50, monsterHealth := 50 } : GameState).gameStats.monsterDamageDealt + applyCriticalMultiplier false 9)
        ∧ ((step { initialState with playerHealth := 50, monsterHealth := 50 } (Action.heal 10 false 9)).battleLog.length = ({ initialState with playerHealth := 50, monsterHealth := 50 } : GameState).battleLog.length + 2)) :=
  ⟨by decide, by decide, by decide, by decide, by decide, by decide, by decide, by decide,
    by decide,
    C5_turn_chaining { initialState with playerHealth := 50, monsterHealth := 50 }
      false 7 12 10 false 9 (by decide) (by decide) (by decide) (by decide)
      (by decide) (by decide) (by decide) (by decide) (by decide)⟩

end MonsterSlayer

namespace MonsterSlayer

/-- Claim C6: while the cooldown is positive the special attack is a
silent no-op (its availability flag, kept in sync with the cooldown, gates
the handler); a successful special attack sets the cooldown to 3 without
decrementing it in the same call; each subsequent `attack()` or `heal()`
decrements a positive cooldown by exactly 1 (and leaves a zero cooldown
alone); and after every such action availability again mirrors
`cooldown = 0`, so the special attack becomes usable exactly when the
cooldown reaches 0. -/
theorem C6_cooldown (s : GameState) (c : Bool) (rA rS rH : Int) (mc : Bool) (mr : Int)
    (hcool : cooldownInv s) :
    (if 0 < s.specialAttackCooldown then step s (Action.special c rS mc mr) = s else True)
    ∧ (if s.gameOver = false ∧ 0 < s.playerHealth ∧ 0 < s.monsterHealth
          ∧ s.specialAttackCooldown ≤ 0 then
        (step s (Action.special c rS mc mr)).specialAttackCooldown = 3
          ∧ (step s (Action.special c rS mc mr)).specialAttackAvailable = false
       else True)
    ∧ (if s.gameOver = false ∧ 0 < s.playerHealth ∧ 0 < s.monsterHealth then
        (step s (Action.attack c rA mc mr)).specialAttackCooldown
          = (if 0 < s.specialAttackCooldown then s.specialAttackCooldown - 1
             else s.specialAttackCooldown)
       else True)
    ∧ (if s.gameOver = false ∧ 0 < s.playerHealth ∧ 0 < s.monsterHealth
          ∧ s.playerHealth ≠ 100 then
        (step s (Action.heal rH mc mr)).specialAttackCooldown
          = (if 0 < s.specialAttackCooldown then s.specialAttackCooldown - 1
             else s.specialAttackCooldown)
       else True)
    ∧ cooldownInv (step s (Action.attack c rA mc mr))
    ∧ cooldownInv (step s (Action.special c rS mc mr))
    ∧ cooldownInv (step s (Action.heal rH mc mr)) := by
  refine ⟨?_, ?_, ?_, ?_, ?_, ?_, ?_⟩
  · split_ifs with hc
    by_cases hb : s.specialAttackAvailable = true
    · exfalso
      have := hcool.mp hb
      omega
    · have hbf : s.specialAttackAvailable = false := by
        simpa using hb
      exact special_guard_noop s c rS mc mr (Or.inr (Or.inr (Or.inr hbf)))
  · split_ifs with hc
    obtain ⟨hgo, hp, hm, hc0⟩ := hc
    have hav : s.specialAttackAvailable = true := hcool.mpr hc0
    have hgS : ¬(s.gameOver = true ∨ s.playerHealth ≤ 0 ∨ s.monsterHealth ≤ 0
        ∨ s.specialAttackAvailable = false) := by
      simp [hgo, hav]
      omega
    constructor
    · show (runEffects s (specialAttackMonster s c rS mc mr)).specialAttackCooldown = 3
      rw [specialAttackMonster_run s c rS mc mr hgS]
      simp only [runEffects_specialAttackCooldown]
      rfl
    · show (runEffects s (specialAttackMonster s c rS mc mr)).specialAttackAvailable = false
      rw [specialAttackMonster_run s c rS mc mr hgS]
      rw [runEffects_specialAttackAvailable]
      show (if SPECIAL_ATTACK_COOLDOWN = s.specialAttackCooldown then false
        else decide (SPECIAL_ATTACK_COOLDOWN ≤ 0)) = false
      unfold SPECIAL_ATTACK_COOLDOWN
      rw [if_neg (by omega)]
      rfl
  · split_ifs with hc hx
    · obtain ⟨hgo, hp, hm⟩ := hc
      have hgA : ¬(s.gameOver = true ∨ s.playerHealth ≤ 0 ∨ s.monsterHealth ≤ 0) := by
        simp [hgo]
        omega
      show (runEffects s (attackMonster s c rA mc mr)).specialAttackCooldown = _
      rw [attackMonster_run s c rA mc mr hgA]
      simp only [runEffects_specialAttackCooldown]
      rw [if_pos hx]
    · obtain ⟨hgo, hp, hm⟩ := hc
      have hgA : ¬(s.gameOver = true ∨ s.playerHealth ≤ 0 ∨ s.monsterHealth ≤ 0) := by
        simp [hgo]
        omega
      show (runEffects s (attackMonster s c rA mc mr)).specialAttackCooldown = _
      rw [attackMonster_run s c rA mc mr hgA]
      simp only [runEffects_specialAttackCooldown]
      rw [if_neg hx]
  · split_ifs with hc hx
    · obtain ⟨hgo, hp, hm, hp100⟩ := hc
      have hgH : ¬(s.gameOver = true ∨ s.playerHealth ≤ 0 ∨ s.monsterHealth ≤ 0
          ∨ s.playerHealth = 100) := by
        simp [hgo, hp100]
        omega
      show (runEffects s (healPlayer s rH mc mr)).specialAttackCooldown = _
      rw [healPlayer_run s rH mc mr hgH]
      simp only [runEffects_specialAttackCooldown]
      rw [if_pos hx]
    · obtain ⟨hgo, hp, hm, hp100⟩ := hc
      have hgH : ¬(s.gameOver = true ∨ s.playerHealth ≤ 0 ∨ s.monsterHealth ≤ 0
          ∨ s.playerHealth = 100) := by
        simp [hgo, hp100]
        omega
      show (runEffects s (healPlayer s rH mc mr)).specialAttackCooldown = _
      rw [healPlayer_run s rH mc mr hgH]
      simp only [runEffects_specialAttackCooldown]
      rw [if_neg hx]
  · by_cases hg : s.gameOver = true ∨ s.playerHealth ≤ 0 ∨ s.monsterHealth ≤ 0
    · rw [attack_guard_noop s c rA mc mr hg]
      exact hcool
    · show cooldownInv (runEffects s (attackMonster s c rA mc mr))
      rw [attackMonster_run s c rA mc mr hg]
      unfold cooldownInv at *
      rw [runEffects_specialAttackAvailable, runEffects_specialAttackCooldown]
      split_ifs <;> simp_all
  · by_cases hg : s.gameOver = true ∨ s.playerHealth ≤ 0 ∨ s.monsterHealth ≤ 0
        ∨ s.specialAttackAvailable = false
    · rw [special_guard_noop s c rS mc mr hg]
      exact hcool
    · have hg' := hg
      push_neg at hg'
      obtain ⟨hgo, hp, hm, hav⟩ := hg'
      have hav' : s.specialAttackAvailable = true := by
        simpa using hav
      show cooldownInv (runEffects s (specialAttackMonster s c rS mc mr))
      rw [specialAttackMonster_run s c rS mc mr hg]
      unfold cooldownInv at *
      rw [runEffects_specialAttackAvailable, runEffects_specialAttackCooldown]
      have hc0 := hcool.mp hav'
      show (if SPECIAL_ATTACK_COOLDOWN = s.specialAttackCooldown then false
          else decide (SPECIAL_ATTACK_COOLDOWN ≤ 0)) = true ↔ SPECIAL_ATTACK_COOLDOWN ≤ 0
      unfold SPECIAL_ATTACK_COOLDOWN
      rw [if_neg (by omega)]
      simp
  · by_cases hg : s.gameOver = true ∨ s.playerHealth ≤ 0 ∨ s.monsterHealth ≤ 0
        ∨ s.playerHealth = 100
    · rw [heal_guard_noop s rH mc mr hg]
      exact hcool
    · show cooldownInv (runEffects s (healPlayer s rH mc mr))
      rw [healPlayer_run s rH mc mr hg]
      unfold cooldownInv at *
      rw [runEffects_specialAttackAvailable, runEffects_specialAttackCooldown]
      split_ifs <;> simp_all

/-- Witness for C6 at a concrete state and rolls. -/
theorem C6_cooldown_witness :
    cooldownInv { initialState with playerHealth := 50, monsterHealth := 50 }
      ∧ ((if 0 < ({ initialState with playerHealth := 50, monsterHealth := 50 }
            : GameState).specialAttackCooldown then
          step { initialState with playerHealth := 50, monsterHealth := 50 }
              (Action.special false 12 false 9)
            = { initialState with playerHealth := 50, monsterHealth := 50 }
         else True)
        ∧ (if ({ initialState with playerHealth := 50, monsterHealth := 50 }
              : GameState).gameOver = false
            ∧ 0 < ({ initialState with playerHealth := 50, monsterHealth := 50 }
              : GameState).playerHealth
            ∧ 0 < ({ initialState with playerHealth := 50, monsterHealth := 50 }
              : GameState).monsterHealth
            ∧ ({ initialState with playerHealth := 50, monsterHealth := 50 }
              : GameState).specialAttackCooldown ≤ 0 then
          (step { initialState with playerHealth := 50, monsterHealth := 50 }
              (Action.special false 12 false 9)).specialAttackCooldown = 3
            ∧ (step { initialState with playerHealth := 50, monsterHealth := 50 }
                (Action.special false 12 false 9)).specialAttackAvailable = false
           else True)
        ∧ (if ({ initialState with playerHealth := 50, monsterHealth := 50 }
              : GameState).gameOver = false
            ∧ 0 < ({ initialState with playerHealth := 50, monsterHealth := 50 }
              : GameState).playerHealth
            ∧ 0 < ({ initialState with playerHealth := 50, monsterHealth := 50 }
              : GameState).monsterHealth then
          (step { initialState with playerHealth := 50, monsterHealth := 50 }
              (Action.attack false 7 false 9)).specialAttackCooldown
            = (if 0 < ({ initialState with playerHealth := 50, monsterHealth := 50 }
                  : GameState).specialAttackCooldown then
                ({ initialState with playerHealth := 50, monsterHealth := 50 }
                  : GameState).specialAttackCooldown - 1
               else ({ initialState with playerHealth := 50, monsterHealth := 50 }
                  : GameState).specialAttackCooldown)
           else True)
        ∧ (if ({ initialState with playerHealth := 50, monsterHealth := 50 }
              : GameState).gameOver = false
            ∧ 0 < ({ initialState with playerHealth := 50, monsterHealth := 50 }
              : GameState).playerHealth
            ∧ 0 < ({ initialState with playerHealth := 50, monsterHealth := 50 }
              : GameState).monsterHealth
            ∧ ({ initialState with playerHealth := 50, monsterHealth := 50 }
              : GameState).playerHealth ≠ 100 then
          (step { initialState with playerHealth := 50, monsterHealth := 50 }
              (Action.heal 10 false 9)).specialAttackCooldown
            = (if 0 < ({ initialState with playerHealth := 50, monsterHealth := 50 }
                  : GameState).specialAttackCooldown then
                ({ initialState with playerHealth := 50, monsterHealth := 50 }
                  : GameState).specialAttackCooldown - 1
               else ({ initialState with playerHealth := 50, monsterHealth := 50 }
                  : GameState).specialAttackCooldown)
           else True)
        ∧ cooldownInv (step { initialState with playerHealth := 50, monsterHealth := 50 }
            (Action.attack false 7 false 9))
        ∧ cooldownInv (step { initialState with playerHealth := 50, monsterHealth := 50 }
            (Action.special false 12 false 9))
        ∧ cooldownInv (step { initialState with playerHealth := 50, monsterHealth := 50 }
            (Action.heal 10 false 9))) :=
  ⟨by decide,
    C6_cooldown { initialState with playerHealth := 50, monsterHealth := 50 }
      false 7 12 10 false 9 (by decide)⟩

end MonsterSlayer

namespace MonsterSlayer

/-- Claim C7 counterexample: at playerHealth = 92 with heal roll 8 the sum
reaches the ceiling exactly (92 + 8 = 100), so the roll did NOT exceed
100, yet the heal log entry is recorded with the capped marker
(`isMaxed = true`, the "(MAX HEALTH!)" text): the code tests
`playerHealth + healing >= 100`, not strict excess. -/
theorem C7_capped_counterexample :
    (step { initialState with playerHealth := 92, monsterHealth := 50 }
        (Action.heal 8 false 8)).battleLog
      = [createLogAttack false 8 false, createLogHeal 8 true]
    ∧ ¬(100 < ({ initialState with playerHealth := 92, monsterHealth := 50 }
        : GameState).playerHealth + 8) := by
  constructor
  · rfl
  · decide

/-- Claim C7 (amended): a `heal()` call records `capped = true`
(`isMaxed`) in its log entry exactly when pre-heal
`playerHealth + roll ≥ 100` — reaching the ceiling counts as capped, not
only strictly exceeding it — and increments `healingDone` by
`100 - playerHealth` when capped and by the full roll otherwise (and
`roundsPlayed` by one). -/
theorem C7_capped_heal_amended (s : GameState) (r : Int) (mc : Bool) (mr : Int)
    (hgo : s.gameOver = false) (hp0 : 0 < s.playerHealth) (h100 : s.playerHealth ≠ 100)
    (hm : 0 < s.monsterHealth)
    ( _hr : rollInRange HEAL_MIN_VALUE HEAL_MAX_VALUE r)
    ( _hmr : rollInRange MONSTER_ATTACK_MIN_DAMAGE MONSTER_ATTACK_MAX_DAMAGE mr) :
    (step s (Action.heal r mc mr)).battleLog
        = createLogAttack false (applyCriticalMultiplier mc mr) mc
          :: createLogHeal r (decide (100 ≤ s.playerHealth + r)) :: s.battleLog
      ∧ (step s (Action.heal r mc mr)).gameStats.healingDone
          = s.gameStats.healingDone
            + (if 100 ≤ s.playerHealth + r then 100 - s.playerHealth else r)
      ∧ (step s (Action.heal r mc mr)).gameStats.roundsPlayed
          = s.gameStats.roundsPlayed + 1 := by
  have hgH : ¬(s.gameOver = true ∨ s.playerHealth ≤ 0 ∨ s.monsterHealth ≤ 0
      ∨ s.playerHealth = 100) := by
    simp [hgo, h100]
    omega
  refine ⟨?_, ?_, ?_⟩
  · show (runEffects s (healPlayer s r mc mr)).battleLog = _
    rw [healPlayer_run s r mc mr hgH]
    simp only [runEffects_battleLog]
  · show (runEffects s (healPlayer s r mc mr)).gameStats.healingDone = _
    rw [healPlayer_run s r mc mr hgH]
    simp only [runEffects_gameStats]
  · show (runEffects s (healPlayer s r mc mr)).gameStats.roundsPlayed = _
    rw [healPlayer_run s r mc mr hgH]
    simp only [runEffects_gameStats]

/-- Witness for the amended C7 at the exact-ceiling state. -/
theorem C7_capped_heal_amended_witness :
    ({ initialState with playerHealth := 92, monsterHealth := 50 } : GameState).gameOver = false
      ∧ rollInRange HEAL_MIN_VALUE HEAL_MAX_VALUE 8
      ∧ ((step { initialState with playerHealth := 92, monsterHealth := 50 }
            (Action.heal 8 false 8)).battleLog
          = createLogAttack false (applyCriticalMultiplier false 8) false
            :: createLogHeal 8
                (decide (100 ≤ ({ initialState with playerHealth := 92, monsterHealth := 50 }
                  : GameState).playerHealth + 8))
            :: ({ initialState with playerHealth := 92, monsterHealth := 50 }
                  : GameState).battleLog
        ∧ (step { initialState with playerHealth := 92, monsterHealth := 50 }
            (Action.heal 8 false 8)).gameStats.healingDone
          = ({ initialState with playerHealth := 92, monsterHealth := 50 }
              : GameState).gameStats.healingDone
            + (if 100 ≤ ({ initialState with playerHealth := 92, monsterHealth := 50 }
                  : GameState).playerHealth + 8 then
                100 - ({ initialState with playerHealth := 92, monsterHealth := 50 }
                  : GameState).playerHealth
               else 8)
        ∧ (step { initialState with playerHealth := 92, monsterHealth := 50 }
            (Action.heal 8 false 8)).gameStats.roundsPlayed
          = ({ initialState with playerHealth := 92, monsterHealth := 50 }
              : GameState).gameStats.roundsPlayed + 1) :=
  ⟨by decide, by decide,
    C7_capped_heal_amended { initialState with playerHealth := 92, monsterHealth := 50 }
      8 false 8 (by decide) (by decide) (by decide) (by decide) (by decide) (by decide)⟩

/-- Claim C8: from any state satisfying the game-over invariant in which
the game is not over, `surrender()` sets playerHealth to 0, winner to
monster, gameOver to true and prepends exactly the surrender log entry,
independent of the (positive) health values and with no chained monster
attack; when the game is already over it changes nothing. -/
theorem C8_surrender (s : GameState) (hinv : gameOverInv s) :
    if s.gameOver = true then step s Action.surrender = s
    else step s Action.surrender
        = { s with
            playerHealth := 0
            winner := some Winner.monster
            gameOver := true
            battleLog := surrenderLogEntry :: s.battleLog } := by
  split_ifs with hg
  · exact surrender_guard_noop s hg
  · have hgo' : s.gameOver = false := by
      simpa using hg
    have hno : ¬(s.playerHealth ≤ 0 ∨ s.monsterHealth ≤ 0) := by
      intro hcon
      have := hinv.mpr hcon
      simp [hgo'] at this
    push_neg at hno
    have hL := surrender_run s hg
    have hch : (surrender s).playerHealth ≠ s.playerHealth
        ∨ (surrender s).monsterHealth ≠ s.monsterHealth := by
      left
      rw [hL]
      show (0:Int) ≠ s.playerHealth
      omega
    show runEffects s (surrender s) = _
    apply GameState.ext_fields
    · rw [runEffects_playerHealth, hL]
    · rw [runEffects_monsterHealth, hL]
    · rw [runEffects_currentRound, hL]
    · rw [runEffects_battleLog, hL]
    · rw [runEffects_gameOver_of_changed _ _ hch, hL]
      rw [if_pos (Or.inr (by
        show (0:Int) ≤ 0
        omega))]
    · rw [runEffects_winner_of_changed _ _ hch, hL]
      rw [if_neg (by
        show ¬(s.monsterHealth ≤ 0 ∧ (0:Int) ≤ 0)
        omega)]
      rw [if_neg (by
        show ¬(s.monsterHealth ≤ 0)
        omega)]
      rw [if_pos (by
        show (0:Int) ≤ 0
        omega)]
    · rw [runEffects_specialAttackAvailable, hL]
      rw [if_pos rfl]
    · rw [runEffects_specialAttackCooldown, hL]
    · rw [runEffects_lastActionWasCritical, hL]
    · rw [runEffects_gameStats, hL]

/-- Witness for C8 at a concrete non-game-over state. -/
theorem C8_surrender_witness :
    gameOverInv { initialState with playerHealth := 50, monsterHealth := 50 }
      ∧ (if ({ initialState with playerHealth := 50, monsterHealth := 50 }
            : GameState).gameOver = true then
          step { initialState with playerHealth := 50, monsterHealth := 50 } Action.surrender
            = { initialState with playerHealth := 50, monsterHealth := 50 }
         else
          step { initialState with playerHealth := 50, monsterHealth := 50 } Action.surrender
            = { ({ initialState with playerHealth := 50, monsterHealth := 50 } : GameState) with
                playerHealth := 0
                winner := some Winner.monster
                gameOver := true
                battleLog := surrenderLogEntry
                  :: ({ initialState with playerHealth := 50, monsterHealth := 50 }
                      : GameState).battleLog }) :=
  ⟨by decide,
    C8_surrender { initialState with playerHealth := 50, monsterHealth := 50 } (by decide)⟩

/-- Claim C9: when the game is over or either health is ≤ 0, attack,
special attack and heal are silent no-ops that change no state field;
heal is additionally a no-op at full player health, and special attack is
additionally a no-op while its cooldown is positive (via the availability
flag that mirrors the cooldown). -/
theorem C9_invalid_noop (s : GameState) (c : Bool) (rA rS rH : Int) (mc : Bool) (mr : Int)
    (hcool : cooldownInv s) :
    (if s.gameOver = true ∨ s.playerHealth ≤ 0 ∨ s.monsterHealth ≤ 0 then
      step s (Action.attack c rA mc mr) = s
        ∧ step s (Action.special c rS mc mr) = s
        ∧ step s (Action.heal rH mc mr) = s
     else True)
    ∧ (if s.playerHealth = 100 then step s (Action.heal rH mc mr) = s else True)
    ∧ (if 0 < s.specialAttackCooldown then step s (Action.special c rS mc mr) = s
       else True) := by
  refine ⟨?_, ?_, ?_⟩
  · split_ifs with hg
    exact ⟨attack_guard_noop s c rA mc mr hg,
      special_guard_noop s c rS mc mr (by tauto),
      heal_guard_noop s rH mc mr (by tauto)⟩
  · split_ifs with h100
    exact heal_guard_noop s rH mc mr (Or.inr (Or.inr (Or.inr h100)))
  · split_ifs with hc
    by_cases hb : s.specialAttackAvailable = true
    · exfalso
      have := hcool.mp hb
      omega
    · exact special_guard_noop s c rS mc mr
        (Or.inr (Or.inr (Or.inr (by simpa using hb))))

/-- Witness for C9 at a concrete game-over state. -/
theorem C9_invalid_noop_witness :
    cooldownInv { initialState with gameOver := true, playerHealth := 0 }
      ∧ ((if ({ initialState with gameOver := true, playerHealth := 0 }
            : GameState).gameOver = true
          ∨ ({ initialState with gameOver := true, playerHealth := 0 }
            : GameState).playerHealth ≤ 0
          ∨ ({ initialState with gameOver := true, playerHealth := 0 }
            : GameState).monsterHealth ≤ 0 then
          step { initialState with gameOver := true, playerHealth := 0 }
              (Action.attack false 7 false 9)
            = { initialState with gameOver := true, playerHealth := 0 }
            ∧ step { initialState with gameOver := true, playerHealth := 0 }
                (Action.special false 12 false 9)
              = { initialState with gameOver := true, playerHealth := 0 }
            ∧ step { initialState with gameOver := true, playerHealth := 0 }
                (Action.heal 10 false 9)
              = { initialState with gameOver := true, playerHealth := 0 }
         else True)
        ∧ (if ({ initialState with gameOver := true, playerHealth := 0 }
              : GameState).playerHealth = 100 then
            step { initialState with gameOver := true, playerHealth := 0 }
                (Action.heal 10 false 9)
              = { initialState with gameOver := true, playerHealth := 0 }
           else True)
        ∧ (if 0 < ({ initialState with gameOver := true, playerHealth := 0 }
              : GameState).specialAttackCooldown then
            step { initialState with gameOver := true, playerHealth := 0 }
                (Action.special false 12 false 9)
              = { initialState with gameOver := true, playerHealth := 0 }
           else True)) :=
  ⟨by decide,
    C9_invalid_noop { initialState with gameOver := true, playerHealth := 0 }
      false 7 12 10 false 9 (by decide)⟩

/-- Claim C10 (frame property of surrender): besides playerHealth, winner,
gameOver and the one prepended log entry, `surrender()` leaves every other
state field unchanged — monsterHealth, the round counter, the special
attack cooldown and availability, the last-action-critical flag and all
stats counters keep their prior values (and when the game is already over
nothing at all changes, the log included). -/
theorem C10_surrender_frame (s : GameState) :
    (step s Action.surrender).monsterHealth = s.monsterHealth
    ∧ (step s Action.surrender).currentRound = s.currentRound
    ∧ (step s Action.surrender).specialAttackCooldown = s.specialAttackCooldown
    ∧ (step s Action.surrender).specialAttackAvailable = s.specialAttackAvailable
    ∧ (step s Action.surrender).lastActionWasCritical = s.lastActionWasCritical
    ∧ (step s Action.surrender).gameStats = s.gameStats
    ∧ (if s.gameOver = true then (step s Action.surrender).battleLog = s.battleLog
       else (step s Action.surrender).battleLog = surrenderLogEntry :: s.battleLog) := by
  by_cases hg : s.gameOver = true
  · rw [surrender_guard_noop s hg]
    refine ⟨rfl, rfl, rfl, rfl, rfl, rfl, ?_⟩
    rw [if_pos hg]
  · have hrun : step s Action.surrender = runEffects s (surrender s) := rfl
    rw [hrun, surrender_run s hg]
    refine ⟨?_, ?_, ?_, ?_, ?_, ?_, ?_⟩
    · simp only [runEffects_monsterHealth]
    · simp only [runEffects_currentRound]
    · simp only [runEffects_specialAttackCooldown]
    · rw [runEffects_specialAttackAvailable]
      rw [if_pos rfl]
    · simp only [runEffects_lastActionWasCritical]
    · simp only [runEffects_gameStats]
    · rw [if_neg hg]
      simp only [runEffects_battleLog]

end MonsterSlayer
